import Mathlib

/-
Shallow embedding of the music-player widget in src/src/app/page.tsx
(the only component with logic; the host page merely mounts it).

Modelling conventions:
- React state is a record PlayerSt; each handler or effect body becomes a
  function from the relevant inputs to a new state and/or a list of
  imperative commands issued to the media element.
- The audio element reference (audioRef.current) is modelled by a Boolean
  aud: true when the reference is non-null.  Commands are collected in a
  list MediaCmd, so a run with no command models a silent no-op.
- Math.random successive draws are an oracle r : ℕ → ℕ. Each draw models
  Math.floor(Math.random() * songs.length); the do-while rejection loop of
  shuffle takes the first draw that differs from the current index
  (Nat.find), with the loop termination witness as a hypothesis.
- JS numbers carrying time, fraction and volume values are ℚ.  A duration
  that is unknown (NaN) or zero is modelled as 0, matching the falsy test
  the code applies to it.
- togglePlay is modelled as its run to completion: the transient loading
  value it sets before the 400 ms delay is restored to the computed next
  state at the end, so only the guard and the final outcome are visible.
-/

/-- Track record from the source: src, title, artist (page.tsx lines 26-30). -/
structure Song where
  src : String
  title : String
  artist : String
  deriving DecidableEq

/-- Hardcoded playlist of the component (page.tsx lines 61-77), three tracks. -/
def songs : List Song :=
  [ { src := "/music/Lonely.mp3", title := "Lonely", artist := "Justin Bieber" },
    { src := "https://www.soundhelix.com/examples/mp3/SoundHelix-Song-8.mp3",
      title := "Spy vs. Spy - Chill-out Acid Squeeze Mix", artist := "T. Schürger" },
    { src := "https://www.soundhelix.com/examples/mp3/SoundHelix-Song-1.mp3",
      title := "Song 1", artist := "T. Schürger" } ]

/-- PlayerState enumeration (page.tsx line 25). -/
inductive PlayerState where
  | playing
  | paused
  | loading
  deriving DecidableEq

/-- Repeat mode enumeration (page.tsx line 86). -/
inductive RepeatMode where
  | off
  | one
  | all
  deriving DecidableEq

/-- Session state of the widget: the eight useState cells (page.tsx lines 79-86). -/
structure PlayerSt where
  current : ℕ
  state : PlayerState
  progress : ℚ
  duration : ℚ
  volume : ℚ
  userStarted : Bool
  isShuffle : Bool
  repeatMode : RepeatMode
  deriving DecidableEq

/-- Initial values of the eight useState cells (page.tsx lines 79-86). -/
def initState : PlayerSt :=
  { current := 0
    state := PlayerState.paused
    progress := 0
    duration := 0
    volume := 0.2
    userStarted := false
    isShuffle := false
    repeatMode := RepeatMode.off }

/-- Imperative commands issued to the media element. -/
inductive MediaCmd where
  | play
  | pause
  | load
  | setCurrentTime (t : ℚ)
  | setVolume (v : ℚ)
  deriving DecidableEq

/-- The shuffle function (page.tsx lines 179-188): no-op when the playlist has at
most one song, otherwise redraw with the do-while loop until the drawn index
differs from the current one and set it.  The oracle r gives the successive
values of Math.floor(Math.random() * songs.length); h witnesses that the loop
terminates, and Nat.find h is the first draw accepted by the do-while test. -/
def shuffleFn (songs : List Song) (s : PlayerSt) (r : ℕ → ℕ)
    (h : ∃ n, r n ≠ s.current) : PlayerSt :=
  if songs.length ≤ 1 then s
  else { s with current := r (Nat.find h) }

/-- The nextSong function (page.tsx lines 190-197): defer to shuffle when the
shuffle flag is on, otherwise advance the index by one modulo the playlist
length. -/
def nextSongFn (songs : List Song) (s : PlayerSt) (r : ℕ → ℕ)
    (h : ∃ n, r n ≠ s.current) : PlayerSt :=
  if s.isShuffle then shuffleFn songs s r h
  else { s with current := (s.current + 1) % songs.length }

/-- The prevSong function (page.tsx lines 199-201): wrap from index 0 to the
last index, otherwise decrement. -/
def prevSongFn (songs : List Song) (s : PlayerSt) : PlayerSt :=
  { s with current := if s.current = 0 then songs.length - 1 else s.current - 1 }

/-- The toggleShuffle function (page.tsx lines 169-171). -/
def toggleShuffleFn (s : PlayerSt) : PlayerSt :=
  { s with isShuffle := !s.isShuffle }

/-- The toggleRepeat function (page.tsx lines 173-177): off to one to all to off. -/
def toggleRepeatFn (s : PlayerSt) : PlayerSt :=
  { s with repeatMode :=
      match s.repeatMode with
      | RepeatMode.off => RepeatMode.one
      | RepeatMode.one => RepeatMode.all
      | RepeatMode.all => RepeatMode.off }

/-- The onEnd handler for the ended event (page.tsx lines 102-123).  Returns
the state after the handler together with the media commands it issued.  The
repeat-one branch issues play through the optional-chained reference, so only
when aud is true. -/
def onEnd (songs : List Song) (aud : Bool) (s : PlayerSt) (r : ℕ → ℕ)
    (h : ∃ n, r n ≠ s.current) : PlayerSt × List MediaCmd :=
  if s.repeatMode = RepeatMode.one then
    (s, if aud then [MediaCmd.play] else [])
  else if s.isShuffle then
    (shuffleFn songs s r h, [])
  else if s.repeatMode = RepeatMode.all then
    (nextSongFn songs s r h, [])
  else if s.current < songs.length - 1 then
    (nextSongFn songs s r h, [])
  else
    ({ s with state := PlayerState.paused }, [])

/-- The togglePlay handler (page.tsx lines 150-167), run to completion: guard
on a null reference or the loading state, otherwise set userStarted, compute
the next state, pass through the transient loading value and the 400 ms delay,
issue play or pause, and settle on the computed next state. -/
def togglePlay (aud : Bool) (s : PlayerSt) : PlayerSt × List MediaCmd :=
  if aud = false ∨ s.state = PlayerState.loading then (s, [])
  else
    let next := if s.state = PlayerState.playing then PlayerState.paused
      else PlayerState.playing
    ({ s with userStarted := true, state := next },
      if next = PlayerState.playing then [MediaCmd.play] else [MediaCmd.pause])

/-- The track-change effect (page.tsx lines 136-146), run when the current
index changes: bail out before the first user gesture or on a null reference,
otherwise load and play the element and re-issue setState with the state value
captured at this render (state := s.state). -/
def trackChangeEffect (aud : Bool) (s : PlayerSt) : PlayerSt × List MediaCmd :=
  if s.userStarted = false then (s, [])
  else if aud = false then (s, [])
  else ({ s with state := s.state }, [MediaCmd.load, MediaCmd.play])

/-- The imperative part of the audio-sync effect (page.tsx lines 90-94): bail
out on a null reference, otherwise push the volume to the element. -/
def audioSyncEffect (aud : Bool) (s : PlayerSt) : List MediaCmd :=
  if aud = false then [] else [MediaCmd.setVolume s.volume]

/-- Dependency array of the audio-sync effect (page.tsx line 134): the effect
re-runs, detaching and reattaching the listeners, exactly when this pair
changes between renders. -/
def effectDeps (s : PlayerSt) : ℕ × ℚ :=
  (s.current, s.volume)

/-- State read by the onEnd closure attached as the ended listener (page.tsx
lines 102-123): the current index, the shuffle flag and the repeat mode. -/
def onEndCaptures (s : PlayerSt) : ℕ × Bool × RepeatMode :=
  (s.current, s.isShuffle, s.repeatMode)

/-- Whether a render transition from prev to next re-runs the audio-sync
effect and hence reattaches the media-element listeners: true exactly when the
dependency array of page.tsx line 134 changed. -/
def listenersReattach (prev next : PlayerSt) : Bool :=
  decide (effectDeps prev ≠ effectDeps next)

/-- Seek-bar pointer-down update closure (page.tsx lines 280-288 for the mouse
handler; the touch handler at lines 304-312 installs the same computation with
x the clientX of the first touch point): no-op on a null reference or falsy
duration, otherwise clamp the horizontal fraction to the unit interval and set
the current time to that fraction of the duration. -/
def seekBarUpdate (aud : Bool) (duration x left width : ℚ) : List MediaCmd :=
  if aud = false ∨ duration = 0 then []
  else
    let percent := (x - left) / width
    let clamped := min 1 (max 0 percent)
    [MediaCmd.setCurrentTime (duration * clamped)]

/-- Volume-bar pointer-down update closure (page.tsx lines 435-439 for the
mouse handler; the touch handler at lines 455-459 installs the same
computation): set the volume to the horizontal fraction clamped to the unit
interval. -/
def volumeBarUpdate (x left width : ℚ) (s : PlayerSt) : PlayerSt :=
  { s with volume := min 1 (max 0 ((x - left) / width)) }

/-- Values the volume cell can ever hold: its initial value 0.2 (page.tsx
line 83), or the result of a mouse or touch drag update on the volume bar. -/
inductive VolumeAssigned : ℚ → Prop where
  | init : VolumeAssigned (0.2 : ℚ)
  | drag (x left width : ℚ) (s : PlayerSt) :
      VolumeAssigned ((volumeBarUpdate x left width s).volume)

/-- Oracle whose first draw collides with index 0, forcing one redraw. -/
def rSeq : ℕ → ℕ :=
  fun n => n % 3

/-- Constant oracle drawing index 2 on every attempt. -/
def rTwo : ℕ → ℕ :=
  fun _ => 2

/-- Constant oracle drawing index 1 on every attempt. -/
def rOne : ℕ → ℕ :=
  fun _ => 1

/-- C10: on mount, before any interaction, the session state defaults are
current track index 0, player state paused, progress 0, duration 0, volume 0.2
(neither 0 nor 1), shuffle disabled, repeat mode off, and the user-started
flag false. -/
theorem c10_initial_state_defaults :
    initState.current = 0 ∧ initState.state = PlayerState.paused ∧
    initState.progress = 0 ∧ initState.duration = 0 ∧
    initState.volume = 0.2 ∧ initState.volume ≠ 0 ∧ initState.volume ≠ 1 ∧
    initState.isShuffle = false ∧ initState.repeatMode = RepeatMode.off ∧
    initState.userStarted = false := by
  refine ⟨rfl, rfl, rfl, rfl, rfl, ?_, ?_, rfl, rfl, rfl⟩ <;> norm_num [initState]

/-- C4: for a valid track index with shuffle off, nextSong advances the index
to (i + 1) mod trackCount and prevSong yields (i - 1 + trackCount) mod
trackCount, wrapping from the first track to the last; prevSong reads only the
current index, never the shuffle flag or the repeat mode. -/
theorem c4_next_prev_wraparound (s : PlayerSt) (r : ℕ → ℕ)
    (h : ∃ n, r n ≠ s.current) (hs : s.isShuffle = false)
    (hi : s.current < songs.length) :
    (nextSongFn songs s r h).current = (s.current + 1) % songs.length ∧
    (prevSongFn songs s).current = (s.current + songs.length - 1) % songs.length ∧
    (∀ t : PlayerSt, t.current = s.current →
      (prevSongFn songs t).current = (prevSongFn songs s).current) := by
  refine ⟨?_, ?_, ?_⟩
  · simp [nextSongFn, hs]
  · have hlen : songs.length = 3 := rfl
    rw [prevSongFn, hlen]
    rw [hlen] at hi
    rcases Nat.eq_zero_or_pos s.current with h0 | h0
    · simp [h0]
    · have hne : ¬ s.current = 0 := Nat.pos_iff_ne_zero.mp h0
      simp only [hne, if_false]
      omega
  · intro t ht
    simp [prevSongFn, ht]

/-- C4 witness: from the initial state (index 0, shuffle off), nextSong moves
to index 1 and prevSong wraps to index 2, the last track. -/
theorem c4_witness :
    (nextSongFn songs initState rOne ⟨0, by decide⟩).current = 1 ∧
    (prevSongFn songs initState).current = 2 := by
  have h := c4_next_prev_wraparound initState rOne ⟨0, by decide⟩ rfl (by decide)
  exact ⟨h.1, h.2.1⟩

/-- C5: the shuffle selector is a no-op when the playlist has at most one
song; with more than one song it takes the first random draw that differs from
the current index (redrawing past every earlier colliding draw) and sets the
current index to it, an in-range index different from the current one, leaving
the player state alone. -/
theorem c5_shuffle_selector (songs : List Song) (s : PlayerSt) (r : ℕ → ℕ)
    (h : ∃ n, r n ≠ s.current) :
    (songs.length ≤ 1 → shuffleFn songs s r h = s) ∧
    (1 < songs.length → (∀ n, r n < songs.length) →
      (shuffleFn songs s r h).current < songs.length ∧
      (shuffleFn songs s r h).current ≠ s.current ∧
      (shuffleFn songs s r h).current = r (Nat.find h) ∧
      (∀ m, m < Nat.find h → r m = s.current) ∧
      (shuffleFn songs s r h).state = s.state) := by
  constructor
  · intro hle
    simp [shuffleFn, hle]
  · intro hlen hlt
    have hif : ¬ songs.length ≤ 1 := by omega
    have hcur : (shuffleFn songs s r h).current = r (Nat.find h) := by
      simp [shuffleFn, hif]
    have hstate : (shuffleFn songs s r h).state = s.state := by
      simp [shuffleFn, hif]
    refine ⟨?_, ?_, hcur, ?_, hstate⟩
    · rw [hcur]
      exact hlt _
    · rw [hcur]
      exact Nat.find_spec h
    · intro m hm
      exact not_not.mp (Nat.find_min h hm)

/-- C5 witness: with the three-track playlist, current index 0, and an oracle
whose first draw collides with 0, the selector redraws and lands on index 1,
in range and different from the current index. -/
theorem c5_witness :
    (shuffleFn songs initState rSeq ⟨1, by decide⟩).current ≠ initState.current ∧
    (shuffleFn songs initState rSeq ⟨1, by decide⟩).current < songs.length := by
  have h := (c5_shuffle_selector songs initState rSeq ⟨1, by decide⟩).2
    (by decide) (fun n => Nat.mod_lt n (by decide))
  exact ⟨h.2.1, h.1⟩

/-- C6: a play-pause toggle issued while the player state is loading is a
complete no-op: the whole state record is unchanged (so the state stays
loading and no flag, index or volume moves) and no media command is issued. -/
theorem c6_toggle_while_loading_noop (aud : Bool) (s : PlayerSt)
    (h : s.state = PlayerState.loading) :
    togglePlay aud s = (s, []) := by
  simp [togglePlay, h]

/-- C6 witness: toggling from the loading state with a live element changes
nothing and issues nothing. -/
theorem c6_witness :
    togglePlay true { initState with state := PlayerState.loading } =
      ({ initState with state := PlayerState.loading }, []) :=
  c6_toggle_while_loading_noop true _ rfl

/-- C1: the end-of-track handler resolves in priority order: with repeat mode
one it replays the same track, index and state unchanged; else with shuffle on
it jumps to an in-range index different from the current one, state unchanged;
else with repeat mode all it advances to the next index with wraparound; else
when the current index is not the last it advances by one; and on the last
track with shuffle and repeat off the index stays put and the state becomes
paused. -/
theorem c1_onEnd_priority (songs : List Song) (aud : Bool) (s : PlayerSt)
    (r : ℕ → ℕ) (h : ∃ n, r n ≠ s.current) :
    (s.repeatMode = RepeatMode.one →
      onEnd songs aud s r h = (s, if aud then [MediaCmd.play] else [])) ∧
    (s.repeatMode ≠ RepeatMode.one → s.isShuffle = true → 1 < songs.length →
      (∀ n, r n < songs.length) →
      ((onEnd songs aud s r h).1.current ≠ s.current ∧
       (onEnd songs aud s r h).1.current < songs.length ∧
       (onEnd songs aud s r h).1.state = s.state)) ∧
    (s.repeatMode = RepeatMode.all → s.isShuffle = false →
      (onEnd songs aud s r h).1.current = (s.current + 1) % songs.length ∧
      (onEnd songs aud s r h).1.state = s.state) ∧
    (s.repeatMode = RepeatMode.off → s.isShuffle = false →
      s.current < songs.length - 1 →
      (onEnd songs aud s r h).1.current = s.current + 1 ∧
      (onEnd songs aud s r h).1.state = s.state) ∧
    (s.repeatMode = RepeatMode.off → s.isShuffle = false →
      ¬ s.current < songs.length - 1 →
      (onEnd songs aud s r h).1.current = s.current ∧
      (onEnd songs aud s r h).1.state = PlayerState.paused) := by
  refine ⟨?_, ?_, ?_, ?_, ?_⟩
  · intro h1
    simp only [onEnd]
    rw [if_pos h1]
  · intro h1 h2 hlen hlt
    have hif : ¬ songs.length ≤ 1 := by omega
    simp only [onEnd, shuffleFn]
    rw [if_neg h1, if_pos h2, if_neg hif]
    exact ⟨Nat.find_spec h, hlt _, rfl⟩
  · intro h1 h2
    have hne1 : s.repeatMode ≠ RepeatMode.one := by simp [h1]
    have hne2 : ¬ s.isShuffle = true := by simp [h2]
    simp only [onEnd, nextSongFn]
    rw [if_neg hne1, if_neg hne2, if_pos h1, if_neg hne2]
    exact ⟨rfl, rfl⟩
  · intro h1 h2 h3
    have hne1 : s.repeatMode ≠ RepeatMode.one := by simp [h1]
    have hne2 : ¬ s.isShuffle = true := by simp [h2]
    have hne3 : s.repeatMode ≠ RepeatMode.all := by simp [h1]
    simp only [onEnd, nextSongFn]
    rw [if_neg hne1, if_neg hne2, if_neg hne3, if_pos h3, if_neg hne2]
    refine ⟨?_, rfl⟩
    show (s.current + 1) % songs.length = s.current + 1
    exact Nat.mod_eq_of_lt (by omega)
  · intro h1 h2 h3
    have hne1 : s.repeatMode ≠ RepeatMode.one := by simp [h1]
    have hne2 : ¬ s.isShuffle = true := by simp [h2]
    have hne3 : s.repeatMode ≠ RepeatMode.all := by simp [h1]
    simp only [onEnd]
    rw [if_neg hne1, if_neg hne2, if_neg hne3, if_neg h3]
    exact ⟨rfl, rfl⟩

/-- C1 witness: with repeat mode one the handler replays the unchanged state
and issues play; on the last track with shuffle and repeat off it keeps index
2 and pauses. -/
theorem c1_witness :
    onEnd songs true { initState with repeatMode := RepeatMode.one } rOne
        ⟨0, by decide⟩ =
      ({ initState with repeatMode := RepeatMode.one }, [MediaCmd.play]) ∧
    (onEnd songs true { initState with current := 2 } rOne
        ⟨0, by decide⟩).1.current = 2 ∧
    (onEnd songs true { initState with current := 2 } rOne
        ⟨0, by decide⟩).1.state = PlayerState.paused := by
  have ha := (c1_onEnd_priority songs true
    { initState with repeatMode := RepeatMode.one } rOne ⟨0, by decide⟩).1 rfl
  have he := (c1_onEnd_priority songs true
    { initState with current := 2 } rOne ⟨0, by decide⟩).2.2.2.2 rfl rfl
    (by decide)
  exact ⟨ha, he.1, he.2⟩

/-- C2: evaluation at the failing scenario.  Toggling shuffle from the initial
state changes state the ended listener reads (the captures go from shuffle off
to shuffle on) but not the dependency pair (current, volume) of the
listener-attaching effect, so the listeners are not reattached; at the next
track end the installed closure still runs on the captured state with shuffle
off and advances sequentially to index 1, while a closure over the live state
would take the shuffle branch and land on the drawn index 2. -/
theorem c2_stale_shuffle_closure :
    listenersReattach initState (toggleShuffleFn initState) = false ∧
    onEndCaptures initState ≠ onEndCaptures (toggleShuffleFn initState) ∧
    (toggleShuffleFn initState).isShuffle = true ∧
    (onEnd songs true initState rTwo ⟨0, by decide⟩).1.current = 1 ∧
    (onEnd songs true (toggleShuffleFn initState) rTwo
      ⟨0, by decide⟩).1.current = 2 := by
  refine ⟨decide_eq_false (not_not.mpr rfl), ?_, rfl, rfl, rfl⟩
  simp [onEndCaptures, toggleShuffleFn, initState]

/-- C3 counterexample: with the user-started flag set and the player paused, a
track change issues load and play, yet the displayed state stays paused rather
than becoming playing to match the now-playing element. -/
theorem c3_counterexample :
    (trackChangeEffect true { initState with userStarted := true }).2 =
      [MediaCmd.load, MediaCmd.play] ∧
    (trackChangeEffect true { initState with userStarted := true }).1.state =
      PlayerState.paused ∧
    PlayerState.paused ≠ PlayerState.playing := by
  exact ⟨rfl, rfl, by decide⟩

/-- C3 amended: after the user-started flag is set, a track change with a live
element reloads the source and attempts playback regardless of the prior play
or pause state, and then re-issues the previously displayed player state
unchanged (it does not update it to match the now-playing element); before the
first user gesture a track change triggers no load or play call. -/
theorem c3_track_change_behavior (aud : Bool) (s : PlayerSt) :
    (s.userStarted = false → trackChangeEffect aud s = (s, [])) ∧
    (s.userStarted = true → aud = true →
      trackChangeEffect aud s = (s, [MediaCmd.load, MediaCmd.play])) := by
  constructor
  · intro h1
    simp [trackChangeEffect, h1]
  · intro h1 h2
    have hne1 : ¬ s.userStarted = false := by simp [h1]
    have hne2 : ¬ aud = false := by simp [h2]
    simp only [trackChangeEffect]
    rw [if_neg hne1, if_neg hne2]

/-- C3 witness: before any gesture a track change does nothing; after the
first gesture it loads and plays and the state record is returned unchanged. -/
theorem c3_witness :
    trackChangeEffect true initState = (initState, []) ∧
    trackChangeEffect true { initState with userStarted := true } =
      ({ initState with userStarted := true },
        [MediaCmd.load, MediaCmd.play]) := by
  exact ⟨(c3_track_change_behavior true initState).1 rfl,
    (c3_track_change_behavior true
      { initState with userStarted := true }).2 rfl rfl⟩

/-- C7: a pointer-down at horizontal coordinate x on a bar starting at left
with the given width applies the clamped fraction immediately: the seek bar,
with a live element and a known nonzero duration, sets the current time to
clamp of the fraction times the duration and is a no-op when the duration is
zero or unknown; the volume bar sets the volume to the clamped fraction. -/
theorem c7_pointer_down_clamped (aud : Bool) (d x l w : ℚ) (s : PlayerSt)
    (hd : d ≠ 0) :
    seekBarUpdate true d x l w =
      [MediaCmd.setCurrentTime (d * min 1 (max 0 ((x - l) / w)))] ∧
    seekBarUpdate aud 0 x l w = [] ∧
    (volumeBarUpdate x l w s).volume = min 1 (max 0 ((x - l) / w)) := by
  refine ⟨?_, ?_, rfl⟩
  · simp [seekBarUpdate, hd]
  · simp [seekBarUpdate]

/-- C7 witness: with duration 200 and a pointer 20 units right of a 10-unit
bar (fraction 2, clamped to 1) the seek lands at time 200; with zero duration
the same press is a no-op; a pointer left of the volume bar (fraction -1/2,
clamped to 0) sets the volume to 0. -/
theorem c7_witness :
    seekBarUpdate true 200 30 10 10 = [MediaCmd.setCurrentTime 200] ∧
    seekBarUpdate true 0 30 10 10 = [] ∧
    (volumeBarUpdate (-5) 0 10 initState).volume = 0 := by
  have h1 := c7_pointer_down_clamped true 200 30 10 10 initState (by norm_num)
  have h2 := c7_pointer_down_clamped true 1 (-5) 0 10 initState (by norm_num)
  refine ⟨?_, h1.2.1, ?_⟩
  · rw [h1.1]
    norm_num [min_def, max_def]
  · rw [h2.2.2]
    norm_num [min_def, max_def]

/-- C8: every value the volume cell can hold, the initial 0.2 and the result
of every mouse or touch drag update, lies in the unit interval, and the
audio-sync effect pushes exactly that held value to the media element. -/
theorem c8_volume_in_unit_interval (v : ℚ) (h : VolumeAssigned v) :
    0 ≤ v ∧ v ≤ 1 ∧
    (∀ s : PlayerSt, s.volume = v →
      audioSyncEffect true s = [MediaCmd.setVolume v]) := by
  induction h with
  | init =>
      refine ⟨by norm_num, by norm_num, ?_⟩
      intro s hs
      simp [audioSyncEffect, hs]
  | drag x l w s =>
      refine ⟨?_, ?_, ?_⟩
      · exact le_min zero_le_one (le_max_left _ _)
      · exact min_le_left _ _
      · intro t ht
        simp [audioSyncEffect, ht]

/-- C8 witness: the initial volume 0.2 is in the unit interval and is the
value pushed to the element by the audio-sync effect in the initial state. -/
theorem c8_witness :
    (0 : ℚ) ≤ 0.2 ∧ (0.2 : ℚ) ≤ 1 ∧
    audioSyncEffect true initState = [MediaCmd.setVolume 0.2] := by
  have h := c8_volume_in_unit_interval 0.2 VolumeAssigned.init
  exact ⟨h.1, h.2.1, h.2.2 initState rfl⟩

/-- C9: with a null media-element reference every handler that issues
imperative media commands is a silent no-op: the toggle, the track-change
effect, the audio-sync effect, the seek-bar update and the ended handler emit
no command, and the first four leave the state untouched. -/
theorem c9_null_ref_silent_noop (s : PlayerSt) (d x l w : ℚ) (r : ℕ → ℕ)
    (h : ∃ n, r n ≠ s.current) :
    togglePlay false s = (s, []) ∧
    trackChangeEffect false s = (s, []) ∧
    audioSyncEffect false s = [] ∧
    seekBarUpdate false d x l w = [] ∧
    (onEnd songs false s r h).2 = [] := by
  refine ⟨?_, ?_, rfl, rfl, ?_⟩
  · simp [togglePlay]
  · simp only [trackChangeEffect]
    split_ifs <;> rfl
  · simp only [onEnd]
    split_ifs <;> simp_all

/-- C9 witness: at the initial state with a null reference, the toggle, the
track-change effect, the audio-sync effect, the seek-bar update and the ended
handler all do nothing. -/
theorem c9_witness :
    togglePlay false initState = (initState, []) ∧
    trackChangeEffect false initState = (initState, []) ∧
    audioSyncEffect false initState = [] ∧
    seekBarUpdate false 100 5 0 10 = [] ∧
    (onEnd songs false initState rOne ⟨0, by decide⟩).2 = [] :=
  c9_null_ref_silent_noop initState 100 5 0 10 rOne ⟨0, by decide⟩
